import Mathlib

/-!
Verification of the taskflow task-orchestration core: a shallow embedding of
the task data model, the status state machine, the store (tasks plus an
append-only event log with CAS status updates), the dependency resolver, the
scheduler failure path, and the TaskService facade, together with theorems
settling the specification claims against this embedding.

Time is modelled as a natural-number counter; the Go int32 retry counters are
modelled as Nat (the spec declares them non-negative).
-/

namespace Taskflow

/-- Task status enumeration, from internal/model (pinned by TestTaskStatus_String). -/
inductive TaskStatus where
  | unspecified
  | pending
  | running
  | succeeded
  | failed
  | cancelled
  | timeout
deriving DecidableEq, Repr

/-- Task priority enumeration, from internal/model. -/
inductive TaskPriority where
  | unspecified
  | low
  | normal
  | high
  | urgent
deriving DecidableEq, Repr

/-- Task record, from the spec data model (section 3) and the model package
tests; maps are modelled as association lists and timestamps as Nat. -/
structure Task where
  id : String
  name : String
  description : String
  status : TaskStatus
  priority : TaskPriority
  taskType : String
  inputParams : List (String × String)
  outputResult : List (String × String)
  errorMessage : String
  dependencies : List String
  retryCount : Nat
  maxRetries : Nat
  createdBy : String
  createdAt : Nat
  updatedAt : Nat
  startedAt : Option Nat
  completedAt : Option Nat
deriving DecidableEq, Repr

/-- Append-only audit record, from internal/model (pinned by TestTaskEvent). -/
structure TaskEvent where
  id : String
  taskId : String
  fromStatus : TaskStatus
  toStatus : TaskStatus
  message : String
  operator : String
  timestamp : Nat
deriving DecidableEq, Repr

/-- Modelled from the spec: the model package constructor NewTask is absent from
src; per spec section 4.6 and TestNewTask (src/unnamed/part_004) it sets the
descriptive fields, status PENDING, an empty id (assigned by the caller), zero
retry count and unset started and completed timestamps. -/
def newTask (name description : String) (priority : TaskPriority) (taskType : String)
    (inputParams : List (String × String)) (dependencies : List String)
    (maxRetries : Nat) (createdBy : String) (now : Nat) : Task :=
  { id := ""
    name := name
    description := description
    status := TaskStatus.pending
    priority := priority
    taskType := taskType
    inputParams := inputParams
    outputResult := []
    errorMessage := ""
    dependencies := dependencies
    retryCount := 0
    maxRetries := maxRetries
    createdBy := createdBy
    createdAt := now
    updatedAt := now
    startedAt := none
    completedAt := none }

/-- Modelled from the spec: Task.IsTerminal is absent from src; its value on
every status is pinned by TestTask_IsTerminal (src/unnamed/part_004): true
exactly on SUCCEEDED, FAILED, CANCELLED and TIMEOUT. -/
def Task.isTerminal (t : Task) : Bool :=
  t.status == TaskStatus.succeeded || t.status == TaskStatus.failed ||
    t.status == TaskStatus.cancelled || t.status == TaskStatus.timeout

/-- Modelled from the spec: Task.CanRetry is absent from src; spec section 4.6
(status FAILED and retry_count strictly below max_retries) and the table of
TestTask_CanRetry (src/unnamed/part_004) agree on this definition. -/
def Task.canRetry (t : Task) : Bool :=
  t.status == TaskStatus.failed && t.retryCount < t.maxRetries

/-- Allowed transition targets per source status, from
StateMachine.initTransitions (internal/service). -/
def allowedTransitions : TaskStatus → List TaskStatus
  | TaskStatus.unspecified => [TaskStatus.pending]
  | TaskStatus.pending => [TaskStatus.running, TaskStatus.cancelled]
  | TaskStatus.running =>
      [TaskStatus.succeeded, TaskStatus.failed, TaskStatus.timeout, TaskStatus.cancelled]
  | TaskStatus.failed => [TaskStatus.pending, TaskStatus.cancelled]
  | TaskStatus.succeeded => []
  | TaskStatus.cancelled => []
  | TaskStatus.timeout => []

/-- StateMachine.CanTransition: membership in the transition table. -/
def canTransition (fromS toS : TaskStatus) : Bool :=
  (allowedTransitions fromS).contains toS

/-- StateMachine.IsTerminal, from internal/service: note it includes FAILED. -/
def smIsTerminal (s : TaskStatus) : Bool :=
  s == TaskStatus.succeeded || s == TaskStatus.failed ||
    s == TaskStatus.cancelled || s == TaskStatus.timeout

/-- StateMachine.postTransition, from internal/service: stamps startedAt on
entering RUNNING (unconditionally), stamps completedAt and clears the error
message on SUCCEEDED, bumps retryCount on FAILED, stamps completedAt on
CANCELLED and TIMEOUT only when startedAt is set and completedAt is not, and
always refreshes updatedAt. -/
def postTransition (task : Task) (toS : TaskStatus) (now : Nat) : Task :=
  let task1 :=
    match toS with
    | TaskStatus.running => { task with startedAt := some now }
    | TaskStatus.succeeded => { task with completedAt := some now, errorMessage := "" }
    | TaskStatus.failed => { task with retryCount := task.retryCount + 1 }
    | TaskStatus.cancelled =>
        if task.startedAt.isSome && task.completedAt.isNone then
          { task with completedAt := some now }
        else task
    | TaskStatus.timeout =>
        if task.startedAt.isSome && task.completedAt.isNone then
          { task with completedAt := some now }
        else task
    | _ => task
  { task1 with updatedAt := now }

/-- StateMachine.Transition, from internal/service: validates against the
table, sets the new status, then applies the post-transition hooks. The
operator argument is carried but, as in the source, unused by the hooks. -/
def transition (task : Task) (toS : TaskStatus) (operator : String) (now : Nat) :
    Except String Task :=
  if canTransition task.status toS then
    Except.ok (postTransition { task with status := toS } toS now)
  else
    Except.error "invalid state transition"

/-- Store state: the tasks table and the append-only event log. -/
structure Store where
  tasks : List Task
  events : List TaskEvent
deriving DecidableEq, Repr

/-- Modelled from the spec: the repository implementation is absent from src;
get(id) returns the task row or none, and absence is not an error (spec
section 4.2, pinned by TestTaskRepository_GetByID). -/
def getByID (st : Store) (id : String) : Option Task :=
  st.tasks.find? (fun t => t.id == id)

/-- Modelled from the spec: create inserts a row and fails with AlreadyExists
on a duplicate id (spec section 4.2). -/
def storeCreate (st : Store) (t : Task) : Except String Store :=
  if (getByID st t.id).isSome then Except.error "AlreadyExists"
  else Except.ok { st with tasks := st.tasks ++ [t] }

/-- Modelled from the spec: update is a full-record overwrite, NotFound if the
row is absent (spec section 4.2). -/
def storeUpdate (st : Store) (t : Task) : Except String Store :=
  if (getByID st t.id).isSome then
    Except.ok { st with tasks := st.tasks.map (fun u => if u.id == t.id then t else u) }
  else Except.error "NotFound"

/-- Modelled from the spec: add_event appends to the event log (spec 4.2). -/
def addEvent (st : Store) (e : TaskEvent) : Store :=
  { st with events := st.events ++ [e] }

/-- Modelled from the spec: update_status_with_event performs the status CAS
and appends one matching TaskEvent in a single atomic unit; it fails with
NotFound on an absent id and StatusMismatch when the current status differs
from the expected one (spec section 4.2, pinned by
TestTaskRepository_UpdateStatusWithEvent). -/
def updateStatusWithEvent (st : Store) (id : String) (fromS toS : TaskStatus)
    (operator message : String) (now : Nat) : Except String Store :=
  match getByID st id with
  | none => Except.error "NotFound"
  | some t =>
    if t.status == fromS then
      Except.ok
        { tasks :=
            st.tasks.map (fun u =>
              if u.id == id then { t with status := toS, updatedAt := now } else u)
          events := st.events ++
            [{ id := id ++ "_" ++ toString now
               taskId := id
               fromStatus := fromS
               toStatus := toS
               message := message
               operator := operator
               timestamp := now }] }
    else Except.error "StatusMismatch"

/-- Loop body of DefaultDependencyChecker.CheckDependencies (internal/service):
walk the declared upstream ids in order; an absent upstream is an error; a
present upstream that is not SUCCEEDED yields wait (false); otherwise keep
scanning and finish ready (true). -/
def checkDepsLoop (st : Store) : List String → Except String Bool
  | [] => Except.ok true
  | d :: rest =>
    match getByID st d with
    | none => Except.error ("dependency task not found: " ++ d)
    | some dt =>
      if dt.status == TaskStatus.succeeded then checkDepsLoop st rest
      else Except.ok false

/-- DefaultDependencyChecker.CheckDependencies, from internal/service: load
the task (absent is an error), ready immediately on an empty dependency list,
otherwise scan the upstreams in declared order. -/
def checkDependencies (st : Store) (taskID : String) : Except String Bool :=
  match getByID st taskID with
  | none => Except.error ("task not found: " ++ taskID)
  | some task => checkDepsLoop st task.dependencies

/-- TaskService.recordEvent, from internal/service: best-effort append of one
event; the event id concatenates the task id and the timestamp. -/
def recordEvent (st : Store) (task : Task) (fromS toS : TaskStatus)
    (message operator : String) (now : Nat) : Store :=
  addEvent st
    { id := task.id ++ "_" ++ toString now
      taskId := task.id
      fromStatus := fromS
      toStatus := toS
      message := message
      operator := operator
      timestamp := now }

/-- Dependency-validation loop of TaskService.CreateTask (internal/service):
each declared upstream is loaded; the first absent one aborts with an error,
before anything is written. -/
def validateDependencies (st : Store) : List String → Except String Unit
  | [] => Except.ok ()
  | d :: rest =>
    match getByID st d with
    | none => Except.error ("dependency task not found: " ++ d)
    | some _ => validateDependencies st rest

/-- Task value built inside TaskService.CreateTask: NewTask followed by the
assignment of the freshly generated id. -/
def createdTask (newID name description : String) (priority : TaskPriority)
    (taskType : String) (inputParams : List (String × String))
    (dependencies : List String) (maxRetries : Nat) (createdBy : String) (now : Nat) :
    Task :=
  { newTask name description priority taskType inputParams dependencies
      maxRetries createdBy now with id := newID }

/-- TaskService.CreateTask, from internal/service: validate every declared
dependency against the store, then build the task (status PENDING) with the
fresh id, insert it, and record the UNSPECIFIED to PENDING creation event.
The subsequent TrySchedule call on a dependency-free task is scheduler
behaviour outside the creation writes. -/
def createTask (st : Store) (newID : String) (name description : String)
    (priority : TaskPriority) (taskType : String) (inputParams : List (String × String))
    (dependencies : List String) (maxRetries : Nat) (createdBy : String) (now : Nat) :
    Except String (Store × Task) :=
  match validateDependencies st dependencies with
  | Except.error e => Except.error e
  | Except.ok _ =>
    match storeCreate st
        (createdTask newID name description priority taskType inputParams
          dependencies maxRetries createdBy now) with
    | Except.error e => Except.error e
    | Except.ok st1 =>
      Except.ok
        (recordEvent st1
          (createdTask newID name description priority taskType inputParams
            dependencies maxRetries createdBy now)
          TaskStatus.unspecified TaskStatus.pending "task created" createdBy now,
        createdTask newID name description priority taskType inputParams
          dependencies maxRetries createdBy now)

/-- Update patch of TaskService.UpdateTask: the optional status, output-result
and error-message fields read from the updates map in the source. -/
structure TaskPatch where
  status : Option TaskStatus
  outputResult : Option (List (String × String))
  errorMessage : Option String

/-- Status-patch step of TaskService.UpdateTask: a present status routes
through the state machine, an absent one leaves the task unchanged. -/
def applyStatusPatch (task : Task) (p : Option TaskStatus) (operator : String) (now : Nat) :
    Except String Task :=
  match p with
  | none => Except.ok task
  | some s => transition task s operator now

/-- Output-result patch step of TaskService.UpdateTask. -/
def patchOutput (t : Task) (p : Option (List (String × String))) : Task :=
  match p with
  | some r => { t with outputResult := r }
  | none => t

/-- Error-message patch step of TaskService.UpdateTask. -/
def patchErrMsg (t : Task) (p : Option String) : Task :=
  match p with
  | some m => { t with errorMessage := m }
  | none => t

/-- TaskService.UpdateTask, from internal/service: load the task, route a
status patch through the state machine, apply the mutable-field patches,
refresh updatedAt and persist with a full-record overwrite. No event is
appended on this path. -/
def updateTask (st : Store) (id : String) (patch : TaskPatch) (operator : String)
    (now : Nat) : Except String (Store × Task) :=
  match getByID st id with
  | none => Except.error ("task not found: " ++ id)
  | some task =>
    match applyStatusPatch task patch.status operator now with
    | Except.error e => Except.error e
    | Except.ok task1 =>
      match storeUpdate st
          { patchErrMsg (patchOutput task1 patch.outputResult) patch.errorMessage with
              updatedAt := now } with
      | Except.error e => Except.error e
      | Except.ok st1 =>
        Except.ok (st1,
          { patchErrMsg (patchOutput task1 patch.outputResult) patch.errorMessage with
              updatedAt := now })

/-- TaskService.CancelTask, from internal/service: load the task, reject when
Task.IsTerminal holds, otherwise validate CANCELLED through the state machine
and persist via the CAS-with-event path. -/
def cancelTask (st : Store) (id operator : String) (now : Nat) : Except String Store :=
  match getByID st id with
  | none => Except.error ("task not found: " ++ id)
  | some task =>
    if task.isTerminal then Except.error "cannot cancel terminal task"
    else
      match transition task TaskStatus.cancelled operator now with
      | Except.error e => Except.error e
      | Except.ok _ =>
        updateStatusWithEvent st id task.status TaskStatus.cancelled operator
          "task cancelled" now

/-- TaskService.RetryTask, from internal/service: load the task, reject unless
Task.CanRetry holds, otherwise validate the FAILED to PENDING transition and
persist via the CAS-with-event path with a retry-attempt message. -/
def retryTask (st : Store) (id operator : String) (now : Nat) : Except String Store :=
  match getByID st id with
  | none => Except.error ("task not found: " ++ id)
  | some task =>
    if task.canRetry then
      match transition task TaskStatus.pending
          ("retry attempt " ++ toString (task.retryCount + 1)) now with
      | Except.error e => Except.error e
      | Except.ok _ =>
        updateStatusWithEvent st id task.status TaskStatus.pending operator
          ("retry attempt " ++ toString (task.retryCount + 1)) now
    else Except.error "task cannot be retried"

/-- Scheduler.handleTaskFailure, from internal/service/scheduler.go: reload
the task (silently returning on absence), then branch on Task.CanRetry of the
reloaded task: CAS RUNNING to PENDING with a retry message when it holds, CAS
RUNNING to FAILED with the error message otherwise. A CAS error is only
logged, leaving the store unchanged. -/
def handleTaskFailure (st : Store) (taskID errMsg : String) (now : Nat) : Store :=
  match getByID st taskID with
  | none => st
  | some task =>
    if task.canRetry then
      match updateStatusWithEvent st taskID TaskStatus.running TaskStatus.pending
          "scheduler" ("retry: " ++ errMsg) now with
      | Except.ok st1 => st1
      | Except.error _ => st
    else
      match updateStatusWithEvent st taskID TaskStatus.running TaskStatus.failed
          "scheduler" errMsg now with
      | Except.ok st1 => st1
      | Except.error _ => st

/-- Outcome of the reload-and-check prefix of Scheduler.executeTask. -/
inductive ExecOutcome where
  | nilDeref
  | abandoned
  | runHandler
deriving DecidableEq, Repr

/-- Reload-and-check prefix of Scheduler.executeTask
(internal/service/scheduler.go): GetByID on an absent id returns a null task
with a nil error; the code checks only the error and then reads the status
field of the null task, a nil-pointer dereference (nilDeref). A CANCELLED task
is abandoned; any other loaded task proceeds to the handler. -/
def executeTaskReload (st : Store) (taskID : String) : ExecOutcome :=
  match getByID st taskID with
  | none => ExecOutcome.nilDeref
  | some task =>
    if task.status == TaskStatus.cancelled then ExecOutcome.abandoned
    else ExecOutcome.runHandler

/-- Application of a sequence of state-machine transitions, each given by a
target status and a timestamp; an invalid step aborts the run. -/
def applyTransitions (task : Task) : List (TaskStatus × Nat) → Option Task
  | [] => some task
  | (toS, now) :: rest =>
    match transition task toS "" now with
    | Except.ok t1 => applyTransitions t1 rest
    | Except.error _ => none

/-! Helper lemmas about the embedding. -/

theorem transition_ok_elim {t t1 : Task} {toS : TaskStatus} {op : String} {now : Nat}
    (h : transition t toS op now = Except.ok t1) :
    canTransition t.status toS = true ∧
      t1 = postTransition { t with status := toS } toS now := by
  by_cases hc : canTransition t.status toS = true
  · refine ⟨hc, ?_⟩
    unfold transition at h
    rw [if_pos hc] at h
    injection h with h2
    exact h2.symm
  · exfalso
    unfold transition at h
    rw [if_neg hc] at h
    exact Except.noConfusion h

theorem transition_eq_ok {t : Task} {toS : TaskStatus} (op : String) (now : Nat)
    (h : canTransition t.status toS = true) :
    transition t toS op now =
      Except.ok (postTransition { t with status := toS } toS now) := by
  unfold transition
  rw [if_pos h]

theorem getByID_some_id {st : Store} {id : String} {t : Task}
    (h : getByID st id = some t) : t.id = id := by
  unfold getByID at h
  have h2 := List.find?_some h
  simpa using h2

theorem find?_map_replace (tasks : List Task) (id : String) (t1 : Task)
    (hid : t1.id = id) :
    (tasks.map (fun u => if u.id == id then t1 else u)).find? (fun u => u.id == id) =
      (tasks.find? (fun u => u.id == id)).map (fun _ => t1) := by
  induction tasks with
  | nil => rfl
  | cons u rest ih =>
    simp only [List.map]
    by_cases h : (u.id == id) = true
    · rw [if_pos h]
      rw [@List.find?_cons_of_pos Task (fun u => u.id == id) t1 _ (by simp [hid])]
      rw [@List.find?_cons_of_pos Task (fun u => u.id == id) u _ h]
      rfl
    · rw [if_neg h]
      rw [@List.find?_cons_of_neg Task (fun u => u.id == id) u _ h]
      rw [@List.find?_cons_of_neg Task (fun u => u.id == id) u _ h]
      exact ih

theorem find?_append_left_none {α : Type} (p : α → Bool) (l1 l2 : List α)
    (h : l1.find? p = none) : (l1 ++ l2).find? p = l2.find? p := by
  rw [List.find?_append, h]
  rfl

theorem storeCreate_events {st st1 : Store} {t : Task}
    (h : storeCreate st t = Except.ok st1) : st1.events = st.events := by
  unfold storeCreate at h
  by_cases hc : (getByID st t.id).isSome = true
  · rw [if_pos hc] at h
    exact Except.noConfusion h
  · rw [if_neg hc] at h
    injection h with h2
    rw [h2.symm]

theorem storeUpdate_events {st st1 : Store} {t : Task}
    (h : storeUpdate st t = Except.ok st1) : st1.events = st.events := by
  unfold storeUpdate at h
  by_cases hc : (getByID st t.id).isSome = true
  · rw [if_pos hc] at h
    injection h with h2
    rw [h2.symm]
  · rw [if_neg hc] at h
    exact Except.noConfusion h

/-- Readiness of a single upstream id: present in the store with status
SUCCEEDED. Used to state the dependency-resolver claim. -/
def depSucceeded (st : Store) (d : String) : Bool :=
  match getByID st d with
  | some dt => dt.status == TaskStatus.succeeded
  | none => false

theorem checkDepsLoop_all_succ {st : Store} :
    ∀ {ds : List String}, (∀ d ∈ ds, depSucceeded st d = true) →
      checkDepsLoop st ds = Except.ok true := by
  intro ds
  induction ds with
  | nil => intro h; rfl
  | cons d rest ih =>
    intro h
    have hd := h d (by simp)
    cases hg : getByID st d with
    | none =>
      unfold depSucceeded at hd
      rw [hg] at hd
      exact absurd hd (by simp)
    | some dt =>
      have hd2 : (dt.status == TaskStatus.succeeded) = true := by
        unfold depSucceeded at hd
        rw [hg] at hd
        exact hd
      unfold checkDepsLoop
      simp only [hg]
      rw [if_pos hd2]
      exact ih (fun d2 hd2b => h d2 (by simp [hd2b]))

theorem checkDepsLoop_append_succ {st : Store} {rest : List String} :
    ∀ {pre : List String}, (∀ p ∈ pre, depSucceeded st p = true) →
      checkDepsLoop st (pre ++ rest) = checkDepsLoop st rest := by
  intro pre
  induction pre with
  | nil => intro h; rfl
  | cons d pre2 ih =>
    intro h
    have hd := h d (by simp)
    cases hg : getByID st d with
    | none =>
      unfold depSucceeded at hd
      rw [hg] at hd
      exact absurd hd (by simp)
    | some dt =>
      have hd2 : (dt.status == TaskStatus.succeeded) = true := by
        unfold depSucceeded at hd
        rw [hg] at hd
        exact hd
      show (match getByID st d with
            | none => Except.error ("dependency task not found: " ++ d)
            | some dt =>
              if dt.status == TaskStatus.succeeded then checkDepsLoop st (pre2 ++ rest)
              else Except.ok false) = checkDepsLoop st rest
      simp only [hg]
      rw [if_pos hd2]
      exact ih (fun p hp => h p (by simp [hp]))

theorem validateDependencies_error_of_absent {st : Store} :
    ∀ {deps : List String} {d : String}, d ∈ deps → getByID st d = none →
      ∃ e, validateDependencies st deps = Except.error e := by
  intro deps
  induction deps with
  | nil => intro d hd; exact absurd hd (by simp)
  | cons x rest ih =>
    intro d hd hnone
    unfold validateDependencies
    cases hg : getByID st x with
    | none => exact ⟨_, rfl⟩
    | some xt =>
      rcases List.mem_cons.mp hd with h1 | h1
      · rw [h1] at hnone
        rw [hnone] at hg
        exact Option.noConfusion hg
      · exact ih h1 hnone

theorem validateDependencies_ok_of_present {st : Store} :
    ∀ {deps : List String}, (∀ d ∈ deps, (getByID st d).isSome = true) →
      validateDependencies st deps = Except.ok () := by
  intro deps
  induction deps with
  | nil => intro h; rfl
  | cons x rest ih =>
    intro h
    have hx := h x (by simp)
    unfold validateDependencies
    cases hg : getByID st x with
    | none => rw [hg] at hx; exact absurd hx (by simp)
    | some xt => exact ih (fun d hd => h d (by simp [hd]))

/-! State-machine history invariant used for claim C5. -/

/-- Membership in the transition-table terminal set (the statuses with no
outgoing transitions): SUCCEEDED, CANCELLED, TIMEOUT. -/
def isTerm3 (s : TaskStatus) : Bool :=
  s == TaskStatus.succeeded || s == TaskStatus.cancelled || s == TaskStatus.timeout

/-- Statuses only reachable after the task has been RUNNING. -/
def runReached (s : TaskStatus) : Bool :=
  s == TaskStatus.running || s == TaskStatus.failed ||
    s == TaskStatus.succeeded || s == TaskStatus.timeout

/-- Inductive timestamp invariant: ever records whether the task has ever
entered RUNNING; startedAt is set exactly then, and completedAt is set exactly
when the current status is in the transition-table terminal set and the task
has been RUNNING. -/
def evInv (t : Task) (ever : Bool) : Prop :=
  t.startedAt.isSome = ever ∧
  t.completedAt.isSome = (isTerm3 t.status && ever) ∧
  (runReached t.status = true → ever = true)

theorem can_to_unspecified {s : TaskStatus}
    (h : canTransition s TaskStatus.unspecified = true) : False := by
  cases s <;> exact absurd h (by decide)

theorem can_to_pending {s : TaskStatus}
    (h : canTransition s TaskStatus.pending = true) :
    s = TaskStatus.unspecified ∨ s = TaskStatus.failed := by
  cases s <;> first
    | exact Or.inl rfl
    | exact Or.inr rfl
    | exact absurd h (by decide)

theorem can_to_running {s : TaskStatus}
    (h : canTransition s TaskStatus.running = true) : s = TaskStatus.pending := by
  cases s <;> first
    | rfl
    | exact absurd h (by decide)

theorem can_to_succeeded {s : TaskStatus}
    (h : canTransition s TaskStatus.succeeded = true) : s = TaskStatus.running := by
  cases s <;> first
    | rfl
    | exact absurd h (by decide)

theorem can_to_failed {s : TaskStatus}
    (h : canTransition s TaskStatus.failed = true) : s = TaskStatus.running := by
  cases s <;> first
    | rfl
    | exact absurd h (by decide)

theorem can_to_timeout {s : TaskStatus}
    (h : canTransition s TaskStatus.timeout = true) : s = TaskStatus.running := by
  cases s <;> first
    | rfl
    | exact absurd h (by decide)

theorem can_to_cancelled {s : TaskStatus}
    (h : canTransition s TaskStatus.cancelled = true) :
    s = TaskStatus.pending ∨ s = TaskStatus.running ∨ s = TaskStatus.failed := by
  cases s <;> first
    | exact Or.inl rfl
    | exact Or.inr (Or.inl rfl)
    | exact Or.inr (Or.inr rfl)
    | exact absurd h (by decide)

theorem evInv_step {t t1 : Task} {ever : Bool} {toS : TaskStatus} {op : String}
    {now : Nat} (hI : evInv t ever) (h : transition t toS op now = Except.ok t1) :
    evInv t1 (ever || (toS == TaskStatus.running)) := by
  obtain ⟨hcan, ht1⟩ := transition_ok_elim h
  obtain ⟨h1, h2, h3⟩ := hI
  subst ht1
  cases toS with
  | unspecified => exact absurd hcan (fun hc => can_to_unspecified hc)
  | running =>
    have hs := can_to_running hcan
    rw [hs] at h2
    rw [show (TaskStatus.running == TaskStatus.running) = true from rfl, Bool.or_true]
    refine ⟨?_, ?_, ?_⟩
    · simp [postTransition]
    · simp only [postTransition]
      simpa [isTerm3] using h2
    · intro _
      rfl
  | succeeded =>
    have hs := can_to_succeeded hcan
    have hev : ever = true := h3 (by rw [hs]; rfl)
    rw [show (TaskStatus.succeeded == TaskStatus.running) = false from rfl, Bool.or_false]
    refine ⟨?_, ?_, ?_⟩
    · simpa [postTransition] using h1
    · simp [postTransition, isTerm3, hev]
    · intro _
      exact hev
  | failed =>
    have hs := can_to_failed hcan
    have hev : ever = true := h3 (by rw [hs]; rfl)
    rw [hs] at h2
    rw [show (TaskStatus.failed == TaskStatus.running) = false from rfl, Bool.or_false]
    refine ⟨?_, ?_, ?_⟩
    · simpa [postTransition] using h1
    · simp only [postTransition]
      simpa [isTerm3] using h2
    · intro _
      exact hev
  | pending =>
    have hs := can_to_pending hcan
    rw [show (TaskStatus.pending == TaskStatus.running) = false from rfl, Bool.or_false]
    refine ⟨?_, ?_, ?_⟩
    · simpa [postTransition] using h1
    · simp only [postTransition]
      rcases hs with hs | hs <;> rw [hs] at h2 <;> simpa [isTerm3] using h2
    · simp [postTransition, runReached]
  | cancelled =>
    have hs := can_to_cancelled hcan
    have hterm : isTerm3 t.status = false := by
      rcases hs with hs | hs | hs <;> rw [hs] <;> rfl
    have hc2 : t.completedAt.isSome = false := by
      rw [h2, hterm]
      rfl
    have hcnone : t.completedAt = none := by
      cases hcc : t.completedAt with
      | none => rfl
      | some a => rw [hcc] at hc2; exact absurd hc2 (by simp)
    rw [show (TaskStatus.cancelled == TaskStatus.running) = false from rfl, Bool.or_false]
    cases hsa : t.startedAt with
    | none =>
      have hev0 : ever = false := by rw [hsa] at h1; exact h1.symm
      refine ⟨?_, ?_, ?_⟩
      · simp [postTransition, hsa, hcnone, hev0]
      · simp [postTransition, hsa, hcnone, isTerm3, hev0]
      · simp [postTransition, hsa, hcnone, runReached]
    | some a =>
      have hev1 : ever = true := by rw [hsa] at h1; exact h1.symm
      refine ⟨?_, ?_, ?_⟩
      · simp [postTransition, hsa, hcnone, hev1]
      · simp [postTransition, hsa, hcnone, isTerm3, hev1]
      · simp [postTransition, hsa, hcnone, runReached]
  | timeout =>
    have hs := can_to_timeout hcan
    have hev : ever = true := h3 (by rw [hs]; rfl)
    have hterm : isTerm3 t.status = false := by rw [hs]; rfl
    have hc2 : t.completedAt.isSome = false := by
      rw [h2, hterm]
      rfl
    have hcnone : t.completedAt = none := by
      cases hcc : t.completedAt with
      | none => rfl
      | some a => rw [hcc] at hc2; exact absurd hc2 (by simp)
    have hsome : ∃ a, t.startedAt = some a := by
      rw [hev] at h1
      cases hss : t.startedAt with
      | none => rw [hss] at h1; exact absurd h1 (by simp)
      | some a => exact ⟨a, rfl⟩
    obtain ⟨a, hsa⟩ := hsome
    rw [show (TaskStatus.timeout == TaskStatus.running) = false from rfl, Bool.or_false]
    refine ⟨?_, ?_, ?_⟩
    · simp [postTransition, hsa, hcnone, hev]
    · simp [postTransition, hsa, hcnone, isTerm3, hev]
    · intro _
      exact hev

theorem applyTransitions_evInv :
    ∀ (steps : List (TaskStatus × Nat)) (t t1 : Task) (ever : Bool),
      evInv t ever → applyTransitions t steps = some t1 →
      evInv t1 (ever || steps.any (fun p => p.1 == TaskStatus.running)) := by
  intro steps
  induction steps with
  | nil =>
    intro t t1 ever h happ
    have ht : t = t1 := by simpa [applyTransitions] using happ
    rw [ht] at h
    simpa using h
  | cons p rest ih =>
    intro t t1 ever h happ
    obtain ⟨toS, now⟩ := p
    have hred : applyTransitions t ((toS, now) :: rest) =
        (match transition t toS "" now with
         | Except.ok tm => applyTransitions tm rest
         | Except.error _ => none) := rfl
    rw [hred] at happ
    cases htr : transition t toS "" now with
    | error e =>
      rw [htr] at happ
      exact Option.noConfusion happ
    | ok tmid =>
      rw [htr] at happ
      have h2 := evInv_step h htr
      have h3 := ih tmid t1 (ever || (toS == TaskStatus.running)) h2 happ
      simpa [List.any_cons, Bool.or_assoc] using h3

/-! Concrete fixtures for the claim theorems. -/

/-- Freshly created base task used by the concrete fixtures. -/
def baseTask : Task := newTask "t" "d" TaskPriority.normal "test" [] [] 3 "u" 0

def c1Task : Task :=
  { baseTask with
      id := "t1"
      status := TaskStatus.running
      startedAt := some 1
      updatedAt := 1 }

def c1Store : Store := { tasks := [c1Task], events := [] }

def c1TaskAfter : Task := { c1Task with status := TaskStatus.failed, updatedAt := 9 }

def c1Event : TaskEvent :=
  { id := "t1_9"
    taskId := "t1"
    fromStatus := TaskStatus.running
    toStatus := TaskStatus.failed
    message := "boom"
    operator := "scheduler"
    timestamp := 9 }

def c1StoreAfter : Store := { tasks := [c1TaskAfter], events := [c1Event] }

def c2FailedTask : Task :=
  { baseTask with
      id := "t2"
      status := TaskStatus.failed
      retryCount := 1
      startedAt := some 1 }

def c2Store : Store := { tasks := [c2FailedTask], events := [] }

def c4Mid : Task :=
  { baseTask with
      status := TaskStatus.pending
      startedAt := some 1
      retryCount := 1
      updatedAt := 3 }

def c4After : Task :=
  { c4Mid with status := TaskStatus.running, startedAt := some 4, updatedAt := 4 }

def c6Task : Task :=
  { baseTask with
      id := "t6"
      status := TaskStatus.failed
      retryCount := 3
      maxRetries := 3 }

def c6Store : Store := { tasks := [c6Task], events := [] }

/-! Settled claims. -/

/-- Claim C1 (code bug): on handler failure the scheduler reloads the task and
is specified to CAS RUNNING to PENDING whenever retry_count is strictly below
max_retries; the code instead branches on Task.CanRetry, which demands status
FAILED, never true for the reloaded RUNNING task, so even with retry budget
left (here 0 of 3) handleTaskFailure performs the CAS RUNNING to FAILED with
the raw error message and appends no retry event. -/
theorem claim_C1_failure_path_eval :
    c1Task.retryCount < c1Task.maxRetries ∧
    c1Task.status = TaskStatus.running ∧
    c1Task.canRetry = false ∧
    handleTaskFailure c1Store "t1" "boom" 9 = c1StoreAfter ∧
    c1StoreAfter.events.map (fun e => (e.fromStatus, e.toStatus, e.message)) =
      [(TaskStatus.running, TaskStatus.failed, "boom")] := by
  refine ⟨by decide, rfl, rfl, ?_, rfl⟩
  rfl

/-- Claim C2 counterexample: the claim states is_terminal(FAILED) is false,
but both the StateMachine IsTerminal and the Task IsTerminal of the code
return true on FAILED. -/
theorem claim_C2_counterexample :
    smIsTerminal TaskStatus.failed = true ∧ c2FailedTask.isTerminal = true := by
  exact ⟨rfl, rfl⟩

/-- Claim C2 (amended): is_terminal returns true exactly on the set
SUCCEEDED, FAILED, CANCELLED, TIMEOUT — FAILED included — for both the
StateMachine IsTerminal and the Task IsTerminal, and consequently CancelTask
rejects cancellation of a FAILED task. -/
theorem claim_C2_amended :
    (∀ s, smIsTerminal s = true ↔
      (s = TaskStatus.succeeded ∨ s = TaskStatus.failed ∨
        s = TaskStatus.cancelled ∨ s = TaskStatus.timeout)) ∧
    (∀ t : Task, t.isTerminal = smIsTerminal t.status) ∧
    (∀ (st : Store) (id op : String) (now : Nat) (t : Task),
      getByID st id = some t → t.status = TaskStatus.failed →
      cancelTask st id op now = Except.error "cannot cancel terminal task") := by
  refine ⟨?_, ?_, ?_⟩
  · intro s
    cases s <;> simp [smIsTerminal]
  · intro t
    rfl
  · intro st id op now t hget hstat
    unfold cancelTask
    rw [hget]
    have hterm : t.isTerminal = true := by
      unfold Task.isTerminal
      rw [hstat]
      rfl
    show (if t.isTerminal = true then
            (Except.error "cannot cancel terminal task" : Except String Store)
          else
            match transition t TaskStatus.cancelled op now with
            | Except.error e => Except.error e
            | Except.ok _ =>
              updateStatusWithEvent st id t.status TaskStatus.cancelled op
                "task cancelled" now) =
        Except.error "cannot cancel terminal task"
    rw [if_pos hterm]

/-- Claim C2 witness: the amended theorem applied to a concrete store holding
a FAILED task. -/
theorem claim_C2_witness :
    getByID c2Store "t2" = some c2FailedTask ∧
    c2FailedTask.status = TaskStatus.failed ∧
    cancelTask c2Store "t2" "op" 5 = Except.error "cannot cancel terminal task" :=
  ⟨rfl, rfl, claim_C2_amended.2.2 c2Store "t2" "op" 5 c2FailedTask rfl rfl⟩

/-- Claim C4 counterexample: a retried task re-enters RUNNING via FAILED,
PENDING, RUNNING; its started_at was some 1 and the new transition to RUNNING
overwrites it to some 4, so the transition does not leave started_at
unchanged. -/
theorem claim_C4_counterexample :
    applyTransitions baseTask
        [(TaskStatus.running, 1), (TaskStatus.failed, 2), (TaskStatus.pending, 3)] =
      some c4Mid ∧
    c4Mid.startedAt = some 1 ∧
    transition c4Mid TaskStatus.running "scheduler" 4 = Except.ok c4After ∧
    c4After.startedAt = some 4 := by
  refine ⟨by decide, rfl, by rfl, rfl⟩

/-- Claim C4 (amended): every valid transition into RUNNING stamps started_at
with the current time unconditionally, overwriting any previously set value. -/
theorem claim_C4_amended :
    ∀ (t : Task) (op : String) (now : Nat),
      canTransition t.status TaskStatus.running = true →
      ∃ t1, transition t TaskStatus.running op now = Except.ok t1 ∧
        t1.startedAt = some now ∧ t1.status = TaskStatus.running := by
  intro t op now h
  refine ⟨postTransition { t with status := TaskStatus.running } TaskStatus.running now,
    transition_eq_ok op now h, ?_, ?_⟩
  · simp [postTransition]
  · simp [postTransition]

/-- Claim C4 witness: the amended theorem applied to the concrete retried
task whose started_at is already set. -/
theorem claim_C4_witness :
    canTransition c4Mid.status TaskStatus.running = true ∧
    (∃ t1, transition c4Mid TaskStatus.running "scheduler" 4 = Except.ok t1 ∧
      t1.startedAt = some 4 ∧ t1.status = TaskStatus.running) :=
  ⟨rfl, claim_C4_amended c4Mid "scheduler" 4 rfl⟩

/-- Claim C6 counterexample: at the boundary retry_count = max_retries the
claim asserts can_retry() is true and retry_task accepts; on the code
can_retry is false there (strict comparison) and RetryTask rejects. -/
theorem claim_C6_counterexample :
    c6Task.status = TaskStatus.failed ∧
    c6Task.retryCount ≤ c6Task.maxRetries ∧
    c6Task.canRetry = false ∧
    retryTask c6Store "t6" "op" 5 = Except.error "task cannot be retried" := by
  refine ⟨rfl, by decide, rfl, rfl⟩

/-- Claim C6 (amended): for FAILED tasks can_retry() holds exactly when
retry_count is strictly below max_retries; at the boundary
retry_count = max_retries it is false and retry_task rejects the request. -/
theorem claim_C6_amended :
    (∀ t : Task, t.status = TaskStatus.failed →
      (t.canRetry = true ↔ t.retryCount < t.maxRetries)) ∧
    (∀ (st : Store) (id op : String) (now : Nat) (t : Task),
      getByID st id = some t → t.status = TaskStatus.failed →
      t.retryCount = t.maxRetries →
      retryTask st id op now = Except.error "task cannot be retried") := by
  constructor
  · intro t ht
    unfold Task.canRetry
    rw [ht]
    simp
  · intro st id op now t hget hstat hcnt
    unfold retryTask
    rw [hget]
    have hcr : t.canRetry = false := by
      unfold Task.canRetry
      rw [hstat, hcnt]
      simp
    show (if t.canRetry = true then
            (match transition t TaskStatus.pending
                ("retry attempt " ++ toString (t.retryCount + 1)) now with
             | Except.error e => Except.error e
             | Except.ok _ =>
               updateStatusWithEvent st id t.status TaskStatus.pending op
                 ("retry attempt " ++ toString (t.retryCount + 1)) now)
          else Except.error "task cannot be retried") =
        Except.error "task cannot be retried"
    rw [if_neg (by rw [hcr]; exact Bool.false_ne_true)]

/-- Claim C6 witness: the amended theorem applied to the concrete boundary
task with retry_count = max_retries = 3. -/
theorem claim_C6_witness :
    getByID c6Store "t6" = some c6Task ∧
    c6Task.status = TaskStatus.failed ∧
    c6Task.retryCount = c6Task.maxRetries ∧
    retryTask c6Store "t6" "op" 5 = Except.error "task cannot be retried" :=
  ⟨rfl, rfl, rfl, claim_C6_amended.2 c6Store "t6" "op" 5 c6Task rfl rfl rfl⟩

/-- Transition table exactly as the claim states it: UNSPECIFIED to PENDING;
PENDING to RUNNING or CANCELLED; RUNNING to SUCCEEDED, FAILED, TIMEOUT or
CANCELLED; FAILED to PENDING or CANCELLED; nothing out of SUCCEEDED,
CANCELLED or TIMEOUT. -/
def specTransitionTable (fromS toS : TaskStatus) : Bool :=
  match fromS, toS with
  | TaskStatus.unspecified, TaskStatus.pending => true
  | TaskStatus.pending, TaskStatus.running => true
  | TaskStatus.pending, TaskStatus.cancelled => true
  | TaskStatus.running, TaskStatus.succeeded => true
  | TaskStatus.running, TaskStatus.failed => true
  | TaskStatus.running, TaskStatus.timeout => true
  | TaskStatus.running, TaskStatus.cancelled => true
  | TaskStatus.failed, TaskStatus.pending => true
  | TaskStatus.failed, TaskStatus.cancelled => true
  | _, _ => false

/-- Claim C7 (confirmed): can_transition agrees with the claimed table on every
pair of statuses, and each of the three terminal statuses rejects every
proposed target, self-loops included. -/
theorem claim_C7_transition_table :
    (∀ a b, canTransition a b = specTransitionTable a b) ∧
    (∀ b, canTransition TaskStatus.succeeded b = false ∧
      canTransition TaskStatus.cancelled b = false ∧
      canTransition TaskStatus.timeout b = false) := by
  constructor
  · intro a b
    cases a <;> cases b <;> rfl
  · intro b
    cases b <;> exact ⟨rfl, rfl, rfl⟩

/-- Claim C10 (confirmed): when the task id handed to a worker is absent from
the store at execution time, the reload in executeTask yields a null task with
no error, the code checks only the error and dereferences the null task, so
the modelled outcome is the nil dereference (a crash) rather than a skip. -/
theorem claim_C10_nil_deref :
    ∀ (st : Store) (taskID : String),
      getByID st taskID = none → executeTaskReload st taskID = ExecOutcome.nilDeref := by
  intro st taskID h
  unfold executeTaskReload
  rw [h]

/-- Claim C10 witness: the theorem applied to the empty store and a ghost id. -/
theorem claim_C10_witness :
    getByID { tasks := [], events := [] } "ghost" = none ∧
    executeTaskReload { tasks := [], events := [] } "ghost" = ExecOutcome.nilDeref :=
  ⟨rfl, claim_C10_nil_deref { tasks := [], events := [] } "ghost" rfl⟩

def c8DepA : Task := { baseTask with id := "a", status := TaskStatus.succeeded }

def c8DepB : Task := { baseTask with id := "b", status := TaskStatus.running }

def c8Main : Task := { baseTask with id := "m", dependencies := ["a", "b"] }

def c8Store : Store := { tasks := [c8DepA, c8DepB, c8Main], events := [] }

/-- Claim C8 (confirmed): the dependency check errors when the task is absent;
answers ready on an empty dependency list and when every upstream is present
and SUCCEEDED; and, scanning the upstreams in declared order, stops at the
first upstream that is not present-and-SUCCEEDED: absent gives an error,
present but not SUCCEEDED gives wait. -/
theorem claim_C8_dependency_check :
    (∀ (st : Store) (id : String), getByID st id = none →
      checkDependencies st id = Except.error ("task not found: " ++ id)) ∧
    (∀ (st : Store) (id : String) (t : Task), getByID st id = some t →
      t.dependencies = [] → checkDependencies st id = Except.ok true) ∧
    (∀ (st : Store) (id : String) (t : Task), getByID st id = some t →
      (∀ d ∈ t.dependencies, depSucceeded st d = true) →
      checkDependencies st id = Except.ok true) ∧
    (∀ (st : Store) (id : String) (t : Task) (pre : List String) (d : String)
        (post : List String),
      getByID st id = some t → t.dependencies = pre ++ d :: post →
      (∀ p ∈ pre, depSucceeded st p = true) →
      (getByID st d = none →
        checkDependencies st id = Except.error ("dependency task not found: " ++ d)) ∧
      (∀ dt, getByID st d = some dt → (dt.status == TaskStatus.succeeded) = false →
        checkDependencies st id = Except.ok false)) := by
  refine ⟨?_, ?_, ?_, ?_⟩
  · intro st id h
    unfold checkDependencies
    rw [h]
  · intro st id t hget hdeps
    unfold checkDependencies
    rw [hget]
    show checkDepsLoop st t.dependencies = Except.ok true
    rw [hdeps]
    rfl
  · intro st id t hget hall
    unfold checkDependencies
    rw [hget]
    show checkDepsLoop st t.dependencies = Except.ok true
    exact checkDepsLoop_all_succ hall
  · intro st id t pre d post hget hdeps hpre
    have hbase : checkDependencies st id = checkDepsLoop st (d :: post) := by
      unfold checkDependencies
      rw [hget]
      show checkDepsLoop st t.dependencies = checkDepsLoop st (d :: post)
      rw [hdeps]
      exact checkDepsLoop_append_succ hpre
    constructor
    · intro hd
      rw [hbase]
      unfold checkDepsLoop
      rw [hd]
    · intro dt hd hstat
      rw [hbase]
      unfold checkDepsLoop
      rw [hd]
      show (if (dt.status == TaskStatus.succeeded) = true then checkDepsLoop st post
            else Except.ok false) = Except.ok false
      rw [if_neg (by rw [hstat]; exact Bool.false_ne_true)]

/-- Claim C8 witness: the short-circuit wait branch of the theorem applied to
a concrete store whose task m depends on succeeded a and then running b. -/
theorem claim_C8_witness :
    getByID c8Store "m" = some c8Main ∧
    c8Main.dependencies = ["a"] ++ "b" :: [] ∧
    getByID c8Store "b" = some c8DepB ∧
    (c8DepB.status == TaskStatus.succeeded) = false ∧
    checkDependencies c8Store "m" = Except.ok false := by
  refine ⟨rfl, rfl, rfl, rfl, ?_⟩
  exact (claim_C8_dependency_check.2.2.2 c8Store "m" c8Main ["a"] "b" [] rfl rfl
    (by intro p hp; rw [show p = "a" by simpa using hp]; rfl)).2 c8DepB rfl rfl

/-- Creation event appended by CreateTask: UNSPECIFIED to PENDING, message
"task created", operator = the creating user. -/
def creationEvent (newID createdBy : String) (now : Nat) : TaskEvent :=
  { id := newID ++ "_" ++ toString now
    taskId := newID
    fromStatus := TaskStatus.unspecified
    toStatus := TaskStatus.pending
    message := "task created"
    operator := createdBy
    timestamp := now }

/-- Store state after a successful CreateTask: the new PENDING row appended to
the tasks table and exactly the creation event appended to the log. -/
def createdStore (st : Store) (newID name description : String)
    (priority : TaskPriority) (taskType : String) (inputParams : List (String × String))
    (dependencies : List String) (maxRetries : Nat) (createdBy : String) (now : Nat) :
    Store :=
  { tasks := st.tasks ++
      [createdTask newID name description priority taskType inputParams dependencies
        maxRetries createdBy now]
    events := st.events ++ [creationEvent newID createdBy now] }

def c9Empty : Store := { tasks := [], events := [] }

/-- Claim C9 (confirmed): CreateTask validates every declared dependency
before writing anything — when some declared upstream is absent it returns an
error and produces no store writes (the error carries no new state; the old
store is untouched) — and otherwise persists the new task with status PENDING
and appends exactly the UNSPECIFIED to PENDING creation event. -/
theorem claim_C9_create_validation :
    (∀ (st : Store) (newID name desc : String) (pr : TaskPriority) (ty : String)
        (ip : List (String × String)) (deps : List String) (mr : Nat) (cb : String)
        (now : Nat) (d : String),
      d ∈ deps → getByID st d = none →
      ∃ e, createTask st newID name desc pr ty ip deps mr cb now = Except.error e) ∧
    (∀ (st : Store) (newID name desc : String) (pr : TaskPriority) (ty : String)
        (ip : List (String × String)) (deps : List String) (mr : Nat) (cb : String)
        (now : Nat),
      (∀ d ∈ deps, (getByID st d).isSome = true) → getByID st newID = none →
      createTask st newID name desc pr ty ip deps mr cb now =
        Except.ok (createdStore st newID name desc pr ty ip deps mr cb now,
          createdTask newID name desc pr ty ip deps mr cb now) ∧
      (createdTask newID name desc pr ty ip deps mr cb now).status =
        TaskStatus.pending ∧
      getByID (createdStore st newID name desc pr ty ip deps mr cb now) newID =
        some (createdTask newID name desc pr ty ip deps mr cb now)) := by
  constructor
  · intro st newID name desc pr ty ip deps mr cb now d hd hnone
    obtain ⟨e, he⟩ := validateDependencies_error_of_absent hd hnone
    refine ⟨e, ?_⟩
    unfold createTask
    rw [he]
  · intro st newID name desc pr ty ip deps mr cb now hall hfresh
    have hv := validateDependencies_ok_of_present hall
    have hsc : storeCreate st (createdTask newID name desc pr ty ip deps mr cb now) =
        Except.ok { st with tasks := st.tasks ++
          [createdTask newID name desc pr ty ip deps mr cb now] } := by
      unfold storeCreate
      have h2 : getByID st (createdTask newID name desc pr ty ip deps mr cb now).id =
          none := hfresh
      rw [h2]
      rfl
    refine ⟨?_, rfl, ?_⟩
    · unfold createTask
      rw [hv, hsc]
      rfl
    · unfold createdStore getByID
      have hfind : List.find? (fun u => u.id == newID) st.tasks = none := hfresh
      rw [find?_append_left_none _ _ _ hfind]
      rw [@List.find?_cons_of_pos Task (fun u => u.id == newID)
        (createdTask newID name desc pr ty ip deps mr cb now) []
        (beq_self_eq_true newID)]

/-- Claim C9 witness: the success branch of the theorem applied to the empty
store with no declared dependencies. -/
theorem claim_C9_witness :
    getByID c9Empty "n1" = none ∧
    createTask c9Empty "n1" "a" "d" TaskPriority.normal "ty" [] [] 3 "u" 4 =
      Except.ok (createdStore c9Empty "n1" "a" "d" TaskPriority.normal "ty" [] [] 3 "u" 4,
        createdTask "n1" "a" "d" TaskPriority.normal "ty" [] [] 3 "u" 4) ∧
    getByID (createdStore c9Empty "n1" "a" "d" TaskPriority.normal "ty" [] [] 3 "u" 4)
        "n1" =
      some (createdTask "n1" "a" "d" TaskPriority.normal "ty" [] [] 3 "u" 4) := by
  have h := claim_C9_create_validation.2 c9Empty "n1" "a" "d" TaskPriority.normal "ty"
    [] [] 3 "u" 4 (by intro d hd; exact absurd hd (by simp)) rfl
  exact ⟨rfl, h.1, h.2.2⟩

def c3Task : Task := { baseTask with id := "t3" }

def c3Store : Store := { tasks := [c3Task], events := [] }

def c3Patch : TaskPatch :=
  { status := some TaskStatus.running, outputResult := none, errorMessage := none }

def c3TaskAfter : Task :=
  { c3Task with
      status := TaskStatus.running
      startedAt := some 7
      updatedAt := 7 }

def c3StoreAfter : Store := { tasks := [c3TaskAfter], events := [] }

/-- Claim C3 counterexample: UpdateTask applies a status patch (PENDING to
RUNNING here) and persists it through the plain full-record overwrite; the
event log is unchanged, so this status change is accompanied by no TaskEvent,
refuting the every-change clause of invariant I1. -/
theorem claim_C3_counterexample :
    updateTask c3Store "t3" c3Patch "op" 7 = Except.ok (c3StoreAfter, c3TaskAfter) ∧
    (getByID c3Store "t3").map Task.status = some TaskStatus.pending ∧
    (getByID c3StoreAfter "t3").map Task.status = some TaskStatus.running ∧
    c3StoreAfter.events = c3Store.events := by
  refine ⟨by rfl, by rfl, by rfl, rfl⟩

/-- Claim C3 (amended): a status change performed through the atomic
update_status_with_event path is accompanied by exactly one TaskEvent whose
(from, to) pair matches the change, and task creation appends exactly the
UNSPECIFIED to PENDING creation event when it succeeds; but a status change
applied through update_task appends no event at all. -/
theorem claim_C3_amended :
    (∀ (st st1 : Store) (id : String) (fromS toS : TaskStatus) (op msg : String)
        (now : Nat),
      updateStatusWithEvent st id fromS toS op msg now = Except.ok st1 →
      st1.events = st.events ++
        [{ id := id ++ "_" ++ toString now
           taskId := id
           fromStatus := fromS
           toStatus := toS
           message := msg
           operator := op
           timestamp := now }] ∧
      ∃ t, getByID st id = some t ∧ t.status = fromS ∧
        getByID st1 id = some { t with status := toS, updatedAt := now }) ∧
    (∀ (st : Store) (newID name desc : String) (pr : TaskPriority) (ty : String)
        (ip : List (String × String)) (deps : List String) (mr : Nat) (cb : String)
        (now : Nat) (st1 : Store) (t : Task),
      createTask st newID name desc pr ty ip deps mr cb now = Except.ok (st1, t) →
      st1.events = st.events ++ [creationEvent newID cb now]) ∧
    (∀ (st st1 : Store) (id : String) (patch : TaskPatch) (op : String) (now : Nat)
        (t1 : Task),
      updateTask st id patch op now = Except.ok (st1, t1) → st1.events = st.events) := by
  refine ⟨?_, ?_, ?_⟩
  · intro st st1 id fromS toS op msg now h
    unfold updateStatusWithEvent at h
    cases hg : getByID st id with
    | none => rw [hg] at h; exact Except.noConfusion h
    | some t =>
      rw [hg] at h
      have h2 : (if (t.status == fromS) = true then
          Except.ok
            ({ tasks := st.tasks.map (fun u =>
                 if u.id == id then { t with status := toS, updatedAt := now } else u)
               events := st.events ++
                 [{ id := id ++ "_" ++ toString now
                    taskId := id
                    fromStatus := fromS
                    toStatus := toS
                    message := msg
                    operator := op
                    timestamp := now }] } : Store)
          else Except.error "StatusMismatch") = Except.ok st1 := h
      by_cases hb : (t.status == fromS) = true
      · rw [if_pos hb] at h2
        injection h2 with h3
        refine ⟨?_, t, rfl, of_decide_eq_true hb, ?_⟩
        · rw [← h3]
        · rw [← h3]
          show (st.tasks.map (fun u =>
              if u.id == id then { t with status := toS, updatedAt := now } else u)).find?
                (fun u => u.id == id) =
            some { t with status := toS, updatedAt := now }
          have hid2 : t.id = id := getByID_some_id hg
          rw [find?_map_replace st.tasks id { t with status := toS, updatedAt := now }
            hid2]
          have hf : List.find? (fun u => u.id == id) st.tasks = some t := hg
          rw [hf]
          rfl
      · rw [if_neg hb] at h2
        exact Except.noConfusion h2
  · intro st newID name desc pr ty ip deps mr cb now st1 t h
    unfold createTask at h
    cases hval : validateDependencies st deps with
    | error e => rw [hval] at h; exact Except.noConfusion h
    | ok u =>
      rw [hval] at h
      have h2 : (match storeCreate st
            (createdTask newID name desc pr ty ip deps mr cb now) with
          | Except.error e => (Except.error e : Except String (Store × Task))
          | Except.ok stc =>
            Except.ok
              (recordEvent stc (createdTask newID name desc pr ty ip deps mr cb now)
                TaskStatus.unspecified TaskStatus.pending "task created" cb now,
              createdTask newID name desc pr ty ip deps mr cb now)) =
          Except.ok (st1, t) := h
      cases hsc : storeCreate st (createdTask newID name desc pr ty ip deps mr cb now) with
      | error e => rw [hsc] at h2; exact Except.noConfusion h2
      | ok stc =>
        rw [hsc] at h2
        have h3 : Except.ok
            (recordEvent stc (createdTask newID name desc pr ty ip deps mr cb now)
              TaskStatus.unspecified TaskStatus.pending "task created" cb now,
            createdTask newID name desc pr ty ip deps mr cb now) =
            Except.ok (st1, t) := h2
        injection h3 with h4
        have h5 : recordEvent stc (createdTask newID name desc pr ty ip deps mr cb now)
            TaskStatus.unspecified TaskStatus.pending "task created" cb now = st1 :=
          congrArg Prod.fst h4
        rw [← h5]
        show (addEvent stc _).events = st.events ++ [creationEvent newID cb now]
        unfold addEvent
        show stc.events ++ _ = st.events ++ [creationEvent newID cb now]
        rw [storeCreate_events hsc]
        rfl
  · intro st st1 id patch op now t1 h
    unfold updateTask at h
    cases hg : getByID st id with
    | none => rw [hg] at h; exact Except.noConfusion h
    | some task =>
      rw [hg] at h
      have h2 : (match applyStatusPatch task patch.status op now with
          | Except.error e => (Except.error e : Except String (Store × Task))
          | Except.ok task1 =>
            match storeUpdate st
                { patchErrMsg (patchOutput task1 patch.outputResult)
                    patch.errorMessage with updatedAt := now } with
            | Except.error e => Except.error e
            | Except.ok stu =>
              Except.ok (stu,
                { patchErrMsg (patchOutput task1 patch.outputResult)
                    patch.errorMessage with updatedAt := now })) =
          Except.ok (st1, t1) := h
      cases hp : applyStatusPatch task patch.status op now with
      | error e => rw [hp] at h2; exact Except.noConfusion h2
      | ok task1 =>
        rw [hp] at h2
        have h3 : (match storeUpdate st
              { patchErrMsg (patchOutput task1 patch.outputResult)
                  patch.errorMessage with updatedAt := now } with
            | Except.error e => (Except.error e : Except String (Store × Task))
            | Except.ok stu =>
              Except.ok (stu,
                { patchErrMsg (patchOutput task1 patch.outputResult)
                    patch.errorMessage with updatedAt := now })) =
            Except.ok (st1, t1) := h2
        cases hu : storeUpdate st
            { patchErrMsg (patchOutput task1 patch.outputResult)
                patch.errorMessage with updatedAt := now } with
        | error e => rw [hu] at h3; exact Except.noConfusion h3
        | ok stu =>
          rw [hu] at h3
          have h4 : Except.ok (stu,
              { patchErrMsg (patchOutput task1 patch.outputResult)
                  patch.errorMessage with updatedAt := now }) =
              Except.ok (st1, t1) := h3
          injection h4 with h5
          have h6 : stu = st1 := congrArg Prod.fst h5
          rw [← h6]
          exact storeUpdate_events hu

def c3wTask : Task := { baseTask with id := "w3", status := TaskStatus.running }

def c3wStore : Store := { tasks := [c3wTask], events := [] }

def c3wEvent : TaskEvent :=
  { id := "w3_5"
    taskId := "w3"
    fromStatus := TaskStatus.running
    toStatus := TaskStatus.succeeded
    message := "task completed"
    operator := "scheduler"
    timestamp := 5 }

def c3wAfter : Store :=
  { tasks := [{ c3wTask with status := TaskStatus.succeeded, updatedAt := 5 }]
    events := [c3wEvent] }

/-- Claim C3 witness: the CAS-with-event clause of the amended theorem applied
to a concrete RUNNING task completing to SUCCEEDED. -/
theorem claim_C3_witness :
    updateStatusWithEvent c3wStore "w3" TaskStatus.running TaskStatus.succeeded
        "scheduler" "task completed" 5 = Except.ok c3wAfter ∧
    c3wAfter.events = c3wStore.events ++ [c3wEvent] := by
  refine ⟨by rfl, ?_⟩
  exact (claim_C3_amended.1 c3wStore c3wAfter "w3" TaskStatus.running
    TaskStatus.succeeded "scheduler" "task completed" 5 (by rfl)).1

/-- Terminal-or-FAILED set as the claim words it: the spec terminal set
SUCCEEDED, CANCELLED, TIMEOUT together with FAILED. -/
def specTerminalOrFailed (s : TaskStatus) : Bool :=
  s == TaskStatus.succeeded || s == TaskStatus.cancelled ||
    s == TaskStatus.timeout || s == TaskStatus.failed

/-- Invariant I3 exactly as claim C5 states it, over a transition run:
started_at is set iff the task has ever been RUNNING, and completed_at is set
iff the task has ever been in a terminal status or FAILED. -/
def specStartedCompletedInvariant (init : Task) (steps : List (TaskStatus × Nat)) :
    Prop :=
  ∀ t, applyTransitions init steps = some t →
    t.startedAt.isSome =
      (init.status == TaskStatus.running ||
        steps.any (fun p => p.1 == TaskStatus.running)) ∧
    t.completedAt.isSome =
      (specTerminalOrFailed init.status ||
        steps.any (fun p => specTerminalOrFailed p.1))

def c5CancelledTask : Task :=
  { baseTask with status := TaskStatus.cancelled, updatedAt := 1 }

/-- Claim C5 counterexample: cancelling a fresh PENDING task enters the
terminal status CANCELLED, yet completed_at stays unset (the hook stamps it
only when started_at is already set), so the completed_at direction of the
claimed invariant fails on this run. -/
theorem claim_C5_counterexample :
    ¬ specStartedCompletedInvariant baseTask [(TaskStatus.cancelled, 1)] := by
  intro h
  have h2 := (h c5CancelledTask (by rfl)).2
  exact absurd h2 (by decide)

/-- Claim C5 (amended): over every valid transition run from a freshly created
task, started_at is set iff the run has entered RUNNING, and completed_at is
set iff the final status is in the transition-table terminal set (SUCCEEDED,
CANCELLED, TIMEOUT) and the run has entered RUNNING; FAILED never stamps
completed_at, and CANCELLED or TIMEOUT stamp it only after RUNNING. -/
theorem claim_C5_amended :
    ∀ (steps : List (TaskStatus × Nat)) (init t : Task),
      init.status = TaskStatus.pending → init.startedAt = none →
      init.completedAt = none →
      applyTransitions init steps = some t →
      t.startedAt.isSome = steps.any (fun p => p.1 == TaskStatus.running) ∧
      t.completedAt.isSome =
        (isTerm3 t.status && steps.any (fun p => p.1 == TaskStatus.running)) := by
  intro steps init t h1 h2 h3 happ
  have hinv : evInv init false := by
    refine ⟨?_, ?_, ?_⟩
    · rw [h2]
      rfl
    · rw [h3, h1]
      rfl
    · rw [h1]
      intro hr
      exact absurd hr (by decide)
  have h4 := applyTransitions_evInv steps init t false hinv happ
  refine ⟨?_, ?_⟩
  · have h5 := h4.1
    simpa using h5
  · have h5 := h4.2.1
    simpa using h5

def c5WitSteps : List (TaskStatus × Nat) :=
  [(TaskStatus.running, 1), (TaskStatus.succeeded, 2)]

def c5WitTask : Task :=
  { baseTask with
      status := TaskStatus.succeeded
      startedAt := some 1
      completedAt := some 2
      updatedAt := 2 }

/-- Claim C5 witness: the amended invariant applied to the concrete run
PENDING to RUNNING to SUCCEEDED from the fresh base task. -/
theorem claim_C5_witness :
    baseTask.status = TaskStatus.pending ∧ baseTask.startedAt = none ∧
    baseTask.completedAt = none ∧
    applyTransitions baseTask c5WitSteps = some c5WitTask ∧
    c5WitTask.startedAt.isSome = true ∧ c5WitTask.completedAt.isSome = true := by
  have h := claim_C5_amended c5WitSteps baseTask c5WitTask rfl rfl rfl (by rfl)
  exact ⟨rfl, rfl, rfl, by rfl, h.1, h.2⟩

end Taskflow
